import Mathlib

/-!
Shallow embedding of the chanze backend services
(`app/services/auth_service.py`, `app/services/task_template_service.py`,
`app/services/task_item_service.py` and the helpers in `app/core/security.py`),
with theorems checking the natural-language specification against the code.

Modelling conventions:
* The document store is a list of records; `find_one`/`get` become `List.find?`,
  `save` replaces the record with the same id, `delete` removes it by id.
* `datetime` values are `PyDateTime`: a clock reading (seconds) plus an
  optional timezone offset (`none` models a naive datetime, `some o` an aware
  one with offset `o` seconds from UTC); `datetime.now(UTC)` is `pyNowUTC t`.
* Bcrypt hashing and verification are opaque collaborators: the operations are
  parametrised by `hashP : String → String` / `verifyP : String → String → Bool`.
* Random token generation and id assignment are oracles passed as arguments.
* `TaskTemplate.get` / `TaskItem.get` raising on a malformed id (caught by the
  services' try/except) is modelled by a `validId : String → Bool` predicate:
  a malformed id resolves to `none` exactly as the caught exception does.
* Raised `HTTPException`s become `Except.error` carrying an `AppError` record
  with the status code, error code, message and details from the source.
* Outbound email is modelled by returning the list of messages handed to the
  email service; the send-success flag is passed in (its failure is only
  logged in the source, so it must not affect anything).
-/

/-- A Python `datetime`: naive when `tzOffset = none`, otherwise aware with the
given offset (seconds east of UTC). -/
structure PyDateTime where
  value : Int
  tzOffset : Option Int
deriving DecidableEq, Repr

/-- `datetime.now(UTC)` at absolute time `t`. -/
def pyNowUTC (t : Int) : PyDateTime := ⟨t, some 0⟩

/-- `d.replace(tzinfo=UTC)` applied only when the value is naive: the
normalisation step of `reset_password`. -/
def normalizeUTC (d : PyDateTime) : PyDateTime :=
  match d.tzOffset with
  | none => ⟨d.value, some 0⟩
  | some _ => d

/-- The absolute instant of an aware datetime (naive treated as offset 0),
used to compare two aware datetimes as Python does. -/
def PyDateTime.toUTCInstant (d : PyDateTime) : Int :=
  d.value - d.tzOffset.getD 0

/-- `details` object of an error payload. -/
structure ErrorDetail where
  field : String
  issue : String
deriving DecidableEq, Repr

/-- A raised `HTTPException` with the structured error payload used throughout
the services. -/
structure AppError where
  status_code : Nat
  code : String
  message : String
  details : ErrorDetail
deriving DecidableEq, Repr

/-- Status 409 EMAIL_ALREADY_EXISTS raised by `register_user`. -/
def emailAlreadyExistsError : AppError :=
  ⟨409, "EMAIL_ALREADY_EXISTS", "An account with this email already exists",
   ⟨"email", "Email already exists"⟩⟩

/-- Status 400 VALIDATION_ERROR raised by `register_user` for a weak password. -/
def passwordValidationError (message : String) : AppError :=
  ⟨400, "VALIDATION_ERROR", message, ⟨"password", message⟩⟩

/-- Status 400 VALIDATION_ERROR raised by `reset_password` for a weak new password. -/
def newPasswordValidationError (message : String) : AppError :=
  ⟨400, "VALIDATION_ERROR", message, ⟨"new_password", message⟩⟩

/-- Status 401 INVALID_CREDENTIALS raised by `login_user`. -/
def invalidCredentialsError : AppError :=
  ⟨401, "INVALID_CREDENTIALS", "Incorrect email or password",
   ⟨"credentials", "Email or password is incorrect"⟩⟩

/-- Status 403 ACCOUNT_DISABLED raised by `login_user`. -/
def accountDisabledError : AppError :=
  ⟨403, "ACCOUNT_DISABLED", "Account has been disabled",
   ⟨"account", "Account is disabled"⟩⟩

/-- Status 403 EMAIL_NOT_VERIFIED raised by `login_user`. -/
def emailNotVerifiedError : AppError :=
  ⟨403, "EMAIL_NOT_VERIFIED", "Please verify your email address before logging in",
   ⟨"email", "Email address not verified"⟩⟩

/-- Status 400 INVALID_TOKEN raised by `reset_password` (both for an unknown token and
for an expired one — a single shared value). -/
def invalidResetTokenError : AppError :=
  ⟨400, "INVALID_TOKEN", "Invalid or expired reset token",
   ⟨"token", "Token is invalid or has expired"⟩⟩

/-- Status 404 TEMPLATE_NOT_FOUND raised by the template service. -/
def templateNotFoundError : AppError :=
  ⟨404, "TEMPLATE_NOT_FOUND", "Task template not found",
   ⟨"template_id", "Template does not exist or does not belong to user"⟩⟩

/-- Status 404 ITEM_NOT_FOUND raised by the item service. -/
def itemNotFoundError : AppError :=
  ⟨404, "ITEM_NOT_FOUND", "Task item not found",
   ⟨"item_id", "Item does not exist or does not belong to user"⟩⟩

/-- Status 400 TEMPLATE_NOT_FOUND raised by the item service for an invalid
`template_id` input. -/
def itemTemplateNotFoundError : AppError :=
  ⟨400, "TEMPLATE_NOT_FOUND", "Template not found",
   ⟨"template_id", "Template does not exist or does not belong to user"⟩⟩

/-- `validate_password` from `app/core/security.py`: length, lowercase,
uppercase, digit — in that order; returns (ok, reason). -/
def validate_password (password : String) : Bool × String :=
  if password.data.length < 8 then
    (false, "Password must be at least 8 characters long")
  else if ¬ password.data.any Char.isLower then
    (false, "Password must contain at least one lowercase letter")
  else if ¬ password.data.any Char.isUpper then
    (false, "Password must contain at least one uppercase letter")
  else if ¬ password.data.any Char.isDigit then
    (false, "Password must contain at least one digit")
  else
    (true, "Password is valid")

/-- The `User` document (`app/models/user.py`). -/
structure User where
  id : String
  email : String
  password_hash : String
  is_active : Bool
  is_verified : Bool
  created_at : PyDateTime
  updated_at : PyDateTime
  email_verification_token : Option String
  password_reset_token : Option String
  password_reset_expires : Option PyDateTime
deriving DecidableEq, Repr

/-- `User.find_one({"email": email})`. -/
def findUserByEmail (store : List User) (email : String) : Option User :=
  store.find? (fun u => u.email == email)

/-- `User.find_one({"password_reset_token": token})`. -/
def findUserByResetToken (store : List User) (token : String) : Option User :=
  store.find? (fun u => u.password_reset_token == some token)

/-- `user.save()`: replace the document with the same id. -/
def saveUser (store : List User) (u : User) : List User :=
  store.map (fun v => if v.id == u.id then u else v)

/-- The claims payload given to `create_access_token` together with the
issued-at and expiry instants it embeds. -/
structure AccessToken where
  sub : String
  user_id : String
  iat : Int
  exp : Int
deriving DecidableEq, Repr

/-- `create_access_token({"sub": …, "user_id": …})` with the default ttl from
settings (`access_token_expire_minutes`). -/
def create_access_token (sub user_id : String) (now expireMinutes : Int) : AccessToken :=
  ⟨sub, user_id, now, now + expireMinutes * 60⟩

/-- `AuthResponse` (`app/schemas/auth.py`). -/
structure AuthResponse where
  message : String
  user_id : Option String
  access_token : Option AccessToken
  token_type : Option String
deriving DecidableEq, Repr

/-- A message handed to the email service. -/
inductive EmailMsg where
  | verification (toEmail : String) (token : String)
  | passwordReset (toEmail : String) (token : String)
  | welcome (toEmail : String)
deriving DecidableEq, Repr

/-- `AuthService.register_user`. `newId` is the id the store assigns on
insert, `verification_token` the value of `generate_random_token()`, `now`
the current time and `emailSent` the email service's result (only logged). -/
def register_user (hashP : String → String) (store : List User)
    (email password : String) (newId verification_token : String) (now : Int)
    (emailSent : Bool) :
    Except AppError AuthResponse × List User × List EmailMsg :=
  match findUserByEmail store email with
  | some _ => (.error emailAlreadyExistsError, store, [])
  | none =>
    let v := validate_password password
    if v.1 = false then
      (.error (passwordValidationError v.2), store, [])
    else
      let user : User :=
        ⟨newId, email, hashP password, true, false, pyNowUTC now, pyNowUTC now,
         some verification_token, none, none⟩
      (.ok ⟨"Registration successful. Please check your email for verification.",
            some newId, none, none⟩,
       store ++ [user], [.verification email verification_token])

/-- `AuthService.login_user`. -/
def login_user (verifyP : String → String → Bool) (store : List User)
    (email password : String) (now expireMinutes : Int) :
    Except AppError AuthResponse :=
  match findUserByEmail store email with
  | none => .error invalidCredentialsError
  | some user =>
    if verifyP password user.password_hash = false then
      .error invalidCredentialsError
    else if user.is_active = false then
      .error accountDisabledError
    else if user.is_verified = false then
      .error emailNotVerifiedError
    else
      .ok ⟨"Login successful", some user.id,
           some (create_access_token user.email user.id now expireMinutes),
           some "bearer"⟩

/-- The generic message `forgot_password` always returns. -/
def forgotPasswordMessage : String :=
  "If email exists, password reset instructions have been sent"

/-- `AuthService.forgot_password`. `reset_token` is the value of
`generate_random_token()`, `expireHours` is `settings.password_reset_expire_hours`,
`emailSent` the email service's result (only logged). -/
def forgot_password (store : List User) (email reset_token : String)
    (now expireHours : Int) (emailSent : Bool) :
    AuthResponse × List User × List EmailMsg :=
  match findUserByEmail store email with
  | some user =>
    if user.is_active && user.is_verified then
      let user' := { user with
        password_reset_token := some reset_token,
        password_reset_expires := some ⟨now + 3600 * expireHours, some 0⟩,
        updated_at := pyNowUTC now }
      (⟨forgotPasswordMessage, none, none, none⟩, saveUser store user',
       [.passwordReset user.email reset_token])
    else
      (⟨forgotPasswordMessage, none, none, none⟩, store, [])
  | none => (⟨forgotPasswordMessage, none, none, none⟩, store, [])

/-- `AuthService.reset_password`. -/
def reset_password (hashP : String → String) (store : List User)
    (token new_password : String) (now : Int) :
    Except AppError AuthResponse × List User :=
  match findUserByResetToken store token with
  | none => (.error invalidResetTokenError, store)
  | some user =>
    match user.password_reset_expires with
    | none => (.error invalidResetTokenError, store)
    | some reset_expires =>
      if (normalizeUTC reset_expires).toUTCInstant ≤ (pyNowUTC now).toUTCInstant then
        (.error invalidResetTokenError, store)
      else
        let v := validate_password new_password
        if v.1 = false then
          (.error (newPasswordValidationError v.2), store)
        else
          let user' := { user with
            password_hash := hashP new_password,
            password_reset_token := none,
            password_reset_expires := none,
            updated_at := pyNowUTC now }
          (.ok ⟨"Password reset successfully", none, none, none⟩, saveUser store user')

/-- The `TaskTemplate` document (`app/models/task_template.py`). -/
structure TaskTemplate where
  id : String
  name : String
  user_id : String
  created_at : Int
  updated_at : Int
deriving DecidableEq, Repr

/-- The `TaskItem` document (`app/models/task_item.py`); `template_id` is
nullable. -/
structure TaskItem where
  id : String
  name : String
  user_id : String
  template_id : Option String
  created_at : Int
  updated_at : Int
deriving DecidableEq, Repr

/-- `TaskTemplate.get(id)`: raises on a malformed id (modelled by
`validId id = false`, giving `none` as the services' try/except does),
otherwise looks the document up by id. -/
def getTemplateDoc (validId : String → Bool) (ts : List TaskTemplate)
    (template_id : String) : Option TaskTemplate :=
  if validId template_id then ts.find? (fun t => t.id == template_id) else none

/-- `TaskItem.get(id)`, same conventions as `getTemplateDoc`. -/
def getItemDoc (validId : String → Bool) (items : List TaskItem)
    (item_id : String) : Option TaskItem :=
  if validId item_id then items.find? (fun it => it.id == item_id) else none

/-- The guarded fetch every template operation starts with: resolve by id
(malformed → none), then null out on owner mismatch. -/
def resolveTemplate (validId : String → Bool) (ts : List TaskTemplate)
    (template_id user_id : String) : Option TaskTemplate :=
  match getTemplateDoc validId ts template_id with
  | some t => if t.user_id == user_id then some t else none
  | none => none

/-- The guarded fetch every item operation starts with. -/
def resolveItem (validId : String → Bool) (items : List TaskItem)
    (item_id user_id : String) : Option TaskItem :=
  match getItemDoc validId items item_id with
  | some it => if it.user_id == user_id then some it else none
  | none => none

/-- `template.save()`: replace the document with the same id. -/
def saveTemplate (ts : List TaskTemplate) (t : TaskTemplate) : List TaskTemplate :=
  ts.map (fun x => if x.id == t.id then t else x)

/-- `item.save()`. -/
def saveItem (items : List TaskItem) (it : TaskItem) : List TaskItem :=
  items.map (fun x => if x.id == it.id then it else x)

/-- `TaskTemplateResponse` (`app/schemas/task_template.py`). -/
structure TaskTemplateResponse where
  id : String
  name : String
  created_at : Int
  updated_at : Int
deriving DecidableEq, Repr

/-- `TaskItemResponse` (`app/schemas/task_item.py`). -/
structure TaskItemResponse where
  id : String
  name : String
  template_id : Option String
  created_at : Int
  updated_at : Int
deriving DecidableEq, Repr

/-- Build the response for a template. -/
def templateResponse (t : TaskTemplate) : TaskTemplateResponse :=
  ⟨t.id, t.name, t.created_at, t.updated_at⟩

/-- Build the response for an item. -/
def itemResponse (it : TaskItem) : TaskItemResponse :=
  ⟨it.id, it.name, it.template_id, it.created_at, it.updated_at⟩

/-- `TaskTemplateUpdate`: the optional name field. -/
structure TaskTemplateUpdate where
  name : Option String
deriving DecidableEq, Repr

/-- `TaskItemCreate`: name plus optional `template_id`. -/
structure TaskItemCreate where
  name : String
  template_id : Option String
deriving DecidableEq, Repr

/-- `TaskItemUpdate`: both fields optional; a provided `template_id` may be the
empty string (the clear signal). -/
structure TaskItemUpdate where
  name : Option String
  template_id : Option String
deriving DecidableEq, Repr

/-- `TaskTemplateService.get_template`. -/
def get_template (validId : String → Bool) (ts : List TaskTemplate)
    (template_id user_id : String) : Except AppError TaskTemplateResponse :=
  match resolveTemplate validId ts template_id user_id with
  | none => .error templateNotFoundError
  | some t => .ok (templateResponse t)

/-- `TaskTemplateService.update_template`. Returns the result together with
the template store after the call. -/
def update_template (validId : String → Bool) (ts : List TaskTemplate)
    (template_id : String) (template_data : TaskTemplateUpdate)
    (user_id : String) (now : Int) :
    Except AppError TaskTemplateResponse × List TaskTemplate :=
  match resolveTemplate validId ts template_id user_id with
  | none => (.error templateNotFoundError, ts)
  | some t =>
    match template_data.name with
    | some n =>
      let t' := { t with name := n, updated_at := now }
      (.ok (templateResponse t'), saveTemplate ts t')
    | none => (.ok (templateResponse t), ts)

/-- Predicate of the item query `{"template_id": template_id, "user_id": user_id}`
used by the cascade of `delete_template`. -/
def cascadeMatch (template_id user_id : String) (it : TaskItem) : Bool :=
  it.template_id == some template_id && it.user_id == user_id

/-- `TaskTemplateService.delete_template`. Each matched item is deleted by id,
then the template is deleted; the success value carries the message and
`deleted_items_count`. Returns (result, template store, item store). -/
def delete_template (validId : String → Bool) (ts : List TaskTemplate)
    (items : List TaskItem) (template_id user_id : String) :
    Except AppError (String × Nat) × List TaskTemplate × List TaskItem :=
  match resolveTemplate validId ts template_id user_id with
  | none => (.error templateNotFoundError, ts, items)
  | some t =>
    let deleted := items.filter (cascadeMatch template_id user_id)
    let remaining := items.filter (fun x => !(deleted.any (fun d => d.id == x.id)))
    (.ok ("Template deleted successfully", deleted.length),
     ts.filter (fun x => !(x.id == t.id)), remaining)

/-- `TaskItemService.get_item`. -/
def get_item (validId : String → Bool) (items : List TaskItem)
    (item_id user_id : String) : Except AppError TaskItemResponse :=
  match resolveItem validId items item_id user_id with
  | none => .error itemNotFoundError
  | some it => .ok (itemResponse it)

/-- `TaskItemService.create_item`. The `if item_data.template_id:` truthiness
guard validates the template only when the field is present and non-empty;
the inserted document carries `item_data.template_id` verbatim. -/
def create_item (validId : String → Bool) (ts : List TaskTemplate)
    (items : List TaskItem) (item_data : TaskItemCreate) (user_id : String)
    (newId : String) (now : Int) :
    Except AppError TaskItemResponse × List TaskItem :=
  let insertIt : Except AppError TaskItemResponse × List TaskItem :=
    let it : TaskItem := ⟨newId, item_data.name, user_id, item_data.template_id, now, now⟩
    (.ok (itemResponse it), items ++ [it])
  match item_data.template_id with
  | some s =>
    if s ≠ "" then
      match resolveTemplate validId ts s user_id with
      | none => (.error itemTemplateNotFoundError, items)
      | some _ => insertIt
    else insertIt
  | none => insertIt

/-- The template validation of `update_item`: a provided, non-empty
`template_id` must resolve to a caller-owned template; omission or the empty
string skips the check. -/
def updateItemTemplateCheckFails (validId : String → Bool)
    (ts : List TaskTemplate) (item_data : TaskItemUpdate) (user_id : String) :
    Bool :=
  match item_data.template_id with
  | some s =>
    if s ≠ "" then
      match resolveTemplate validId ts s user_id with
      | none => true
      | some _ => false
    else false
  | none => false

/-- The two sequential field assignments of `update_item`: a provided name is
set, and a provided `template_id` is set — the empty string becoming `None`. -/
def applyItemUpdate (existing_item : TaskItem) (item_data : TaskItemUpdate) :
    TaskItem :=
  let it1 := match item_data.name with
    | some n => { existing_item with name := n }
    | none => existing_item
  match item_data.template_id with
  | some s => { it1 with template_id := if s == "" then none else some s }
  | none => it1

/-- `TaskItemService.update_item`. Omitted fields leave the document alone; a
provided `template_id` is validated when non-empty and an empty string clears
the association; `updated_at` is set and the document saved exactly when some
field was provided. -/
def update_item (validId : String → Bool) (ts : List TaskTemplate)
    (items : List TaskItem) (item_id : String) (item_data : TaskItemUpdate)
    (user_id : String) (now : Int) :
    Except AppError TaskItemResponse × List TaskItem :=
  match resolveItem validId items item_id user_id with
  | none => (.error itemNotFoundError, items)
  | some existing_item =>
    if updateItemTemplateCheckFails validId ts item_data user_id then
      (.error itemTemplateNotFoundError, items)
    else
      let updated := item_data.name.isSome || item_data.template_id.isSome
      if updated then
        let it3 := { applyItemUpdate existing_item item_data with updated_at := now }
        (.ok (itemResponse it3), saveItem items it3)
      else
        (.ok (itemResponse (applyItemUpdate existing_item item_data)), items)

/-- `TaskItemService.delete_item`. -/
def delete_item (validId : String → Bool) (items : List TaskItem)
    (item_id user_id : String) :
    Except AppError String × List TaskItem :=
  match resolveItem validId items item_id user_id with
  | none => (.error itemNotFoundError, items)
  | some it =>
    (.ok "Task item deleted successfully", items.filter (fun x => !(x.id == it.id)))

/-- Fixture: an active, verified user. -/
def uActive : User :=
  ⟨"u1", "a@x.com", "h1", true, true, pyNowUTC 0, pyNowUTC 0, none, none, none⟩

/-- Fixture: an inactive (verified) user. -/
def uInactive : User :=
  ⟨"u2", "b@x.com", "h2", false, true, pyNowUTC 0, pyNowUTC 0, none, none, none⟩

/-- Fixture: an active but unverified user. -/
def uUnverified : User :=
  ⟨"u3", "c@x.com", "h3", true, false, pyNowUTC 0, pyNowUTC 0, none, none, none⟩

/-- C1: `forgot_password` returns the same fixed success response for every
input — email absent, user inactive, user unverified, or active and verified —
and only in the active-and-verified case does it persist a reset token with
expiry `now + configured hours` and send a reset email; in every other case
the user store is unchanged and no email is sent. -/
theorem C1_forgot_password_uniform_and_gated
    (store : List User) (email reset_token : String) (now expireHours : Int)
    (emailSent : Bool) :
    (forgot_password store email reset_token now expireHours emailSent).1 =
      ⟨forgotPasswordMessage, none, none, none⟩ ∧
    (∀ u, findUserByEmail store email = some u → u.is_active = true →
      u.is_verified = true →
      (forgot_password store email reset_token now expireHours emailSent).2.1 =
        saveUser store { u with
          password_reset_token := some reset_token,
          password_reset_expires := some ⟨now + 3600 * expireHours, some 0⟩,
          updated_at := pyNowUTC now } ∧
      (forgot_password store email reset_token now expireHours emailSent).2.2 =
        [.passwordReset u.email reset_token]) ∧
    ((findUserByEmail store email = none ∨
      ∃ u, findUserByEmail store email = some u ∧
        (u.is_active = false ∨ u.is_verified = false)) →
      (forgot_password store email reset_token now expireHours emailSent).2.1 = store ∧
      (forgot_password store email reset_token now expireHours emailSent).2.2 = []) := by
  unfold forgot_password
  cases h : findUserByEmail store email with
  | none =>
    refine ⟨rfl, ?_, ?_⟩
    · intro u hu; simp [h] at hu
    · intro _; exact ⟨rfl, rfl⟩
  | some u =>
    refine ⟨?_, ?_, ?_⟩
    · by_cases hb : (u.is_active && u.is_verified) = true
      · simp [hb]
      · simp [hb]
    · intro v hv ha hvf
      injection hv with hv
      subst hv
      have hb : (u.is_active && u.is_verified) = true := by
        simp [ha, hvf]
      simp [hb]
    · rintro (habs | ⟨v, hv, hbad⟩)
      · exact Option.noConfusion habs
      · injection hv with hv
        subst hv
        have hb : (u.is_active && u.is_verified) = false := by
          rcases hbad with hb1 | hb1 <;> simp [hb1]
        simp [hb]

/-- Witness for C1 at concrete inputs: the active-and-verified case persists
the token and sends the email; the inactive, unverified and absent cases leave
the store untouched and send nothing, all with the identical response. -/
theorem C1_forgot_password_witness :
    (forgot_password [uActive] "a@x.com" "tok" 100 2 true).1 =
      ⟨forgotPasswordMessage, none, none, none⟩ ∧
    (forgot_password [uInactive] "b@x.com" "tok" 100 2 true).1 =
      ⟨forgotPasswordMessage, none, none, none⟩ ∧
    (forgot_password [uActive] "a@x.com" "tok" 100 2 true).2.1 =
      saveUser [uActive] { uActive with
        password_reset_token := some "tok",
        password_reset_expires := some ⟨100 + 3600 * 2, some 0⟩,
        updated_at := pyNowUTC 100 } ∧
    (forgot_password [uActive] "a@x.com" "tok" 100 2 true).2.2 =
      [.passwordReset "a@x.com" "tok"] ∧
    (forgot_password [uInactive] "b@x.com" "tok" 100 2 true).2.1 = [uInactive] ∧
    (forgot_password [uInactive] "b@x.com" "tok" 100 2 true).2.2 = [] ∧
    (forgot_password [uUnverified] "c@x.com" "tok" 100 2 true).2.1 = [uUnverified] ∧
    (forgot_password [] "nobody@x.com" "tok" 100 2 true).2.1 = [] := by
  have hA := C1_forgot_password_uniform_and_gated [uActive] "a@x.com" "tok" 100 2 true
  have hI := C1_forgot_password_uniform_and_gated [uInactive] "b@x.com" "tok" 100 2 true
  have hU := C1_forgot_password_uniform_and_gated [uUnverified] "c@x.com" "tok" 100 2 true
  have hN := C1_forgot_password_uniform_and_gated [] "nobody@x.com" "tok" 100 2 true
  have hAmain := hA.2.1 uActive (by decide) (by decide) (by decide)
  have hImain := hI.2.2 (Or.inr ⟨uInactive, by decide, Or.inl (by decide)⟩)
  have hUmain := hU.2.2 (Or.inr ⟨uUnverified, by decide, Or.inr (by decide)⟩)
  have hNmain := hN.2.2 (Or.inl (by decide))
  exact ⟨hA.1, hI.1, hAmain.1, hAmain.2, hImain.1, hImain.2, hUmain.1, hNmain.1⟩

/-- C5: `login_user` returns the identical `InvalidCredentialsError` value both
when the email is unknown and when the password does not verify; with a match
it raises `AccountDisabledError` when inactive, then `EmailNotVerifiedError`
when unverified, and otherwise returns a token whose claims carry
subject = the user's email (which equals the looked-up email) and the user id. -/
theorem C5_login_user_cases (verifyP : String → String → Bool)
    (store : List User) (email password : String) (now expireMinutes : Int) :
    (findUserByEmail store email = none →
      login_user verifyP store email password now expireMinutes =
        .error invalidCredentialsError) ∧
    (∀ u, findUserByEmail store email = some u →
      verifyP password u.password_hash = false →
      login_user verifyP store email password now expireMinutes =
        .error invalidCredentialsError) ∧
    (∀ u, findUserByEmail store email = some u →
      verifyP password u.password_hash = true → u.is_active = false →
      login_user verifyP store email password now expireMinutes =
        .error accountDisabledError) ∧
    (∀ u, findUserByEmail store email = some u →
      verifyP password u.password_hash = true → u.is_active = true →
      u.is_verified = false →
      login_user verifyP store email password now expireMinutes =
        .error emailNotVerifiedError) ∧
    (∀ u, findUserByEmail store email = some u →
      verifyP password u.password_hash = true → u.is_active = true →
      u.is_verified = true →
      u.email = email ∧
      login_user verifyP store email password now expireMinutes =
        .ok ⟨"Login successful", some u.id,
             some ⟨u.email, u.id, now, now + expireMinutes * 60⟩,
             some "bearer"⟩) := by
  unfold login_user
  cases h : findUserByEmail store email with
  | none =>
    refine ⟨fun _ => rfl, ?_, ?_, ?_, ?_⟩ <;>
      · intro u hu; exact Option.noConfusion hu
  | some u =>
    have hemail : u.email = email := by
      have hp := List.find?_some h
      exact eq_of_beq hp
    refine ⟨fun habs => Option.noConfusion habs, ?_, ?_, ?_, ?_⟩
    · intro v hv hverify
      injection hv with hv; subst hv
      simp [hverify]
    · intro v hv hverify hact
      injection hv with hv; subst hv
      simp [hverify, hact]
    · intro v hv hverify hact hver
      injection hv with hv; subst hv
      simp [hverify, hact, hver]
    · intro v hv hverify hact hver
      injection hv with hv; subst hv
      refine ⟨hemail, ?_⟩
      simp [hverify, hact, hver, create_access_token]

/-- Witness for C5: each of the five login outcomes at concrete inputs, with a
concrete verifier accepting exactly the password "pw". -/
theorem C5_login_user_witness :
    login_user (fun p _ => p == "pw") [] "a@x.com" "pw" 0 60 =
      .error invalidCredentialsError ∧
    login_user (fun p _ => p == "pw") [uActive] "a@x.com" "bad" 0 60 =
      .error invalidCredentialsError ∧
    login_user (fun p _ => p == "pw") [uInactive] "b@x.com" "pw" 0 60 =
      .error accountDisabledError ∧
    login_user (fun p _ => p == "pw") [uUnverified] "c@x.com" "pw" 0 60 =
      .error emailNotVerifiedError ∧
    login_user (fun p _ => p == "pw") [uActive] "a@x.com" "pw" 0 60 =
      .ok ⟨"Login successful", some "u1", some ⟨"a@x.com", "u1", 0, 3600⟩,
           some "bearer"⟩ := by
  have h0 := (C5_login_user_cases (fun p _ => p == "pw") [] "a@x.com" "pw" 0 60).1
    (by decide)
  have h1 := (C5_login_user_cases (fun p _ => p == "pw") [uActive] "a@x.com" "bad" 0 60).2.1
    uActive (by decide) (by decide)
  have h2 := (C5_login_user_cases (fun p _ => p == "pw") [uInactive] "b@x.com" "pw" 0 60).2.2.1
    uInactive (by decide) (by decide) (by decide)
  have h3 := (C5_login_user_cases (fun p _ => p == "pw") [uUnverified] "c@x.com" "pw" 0 60).2.2.2.1
    uUnverified (by decide) (by decide) (by decide) (by decide)
  have h4 := (C5_login_user_cases (fun p _ => p == "pw") [uActive] "a@x.com" "pw" 0 60).2.2.2.2
    uActive (by decide) (by decide) (by decide) (by decide)
  exact ⟨h0, h1, h2, h3, h4.2⟩

/-- C6: `register_user` fails with `ConflictError` when the email already
exists (so a second registration with the same email fails after a first
succeeds), fails with `ValidationError` when the password is weak, and on
success appends a user that is active, unverified and holds the fresh
verification token, returning the success message and new user id with no
access token; the result does not depend on the email send outcome. -/
theorem C6_register_user_cases (hashP : String → String) (store : List User)
    (email password newId verification_token : String) (now : Int)
    (emailSent : Bool) :
    (findUserByEmail store email ≠ none →
      register_user hashP store email password newId verification_token now emailSent =
        (.error emailAlreadyExistsError, store, [])) ∧
    (findUserByEmail store email = none →
      (validate_password password).1 = false →
      register_user hashP store email password newId verification_token now emailSent =
        (.error (passwordValidationError (validate_password password).2), store, [])) ∧
    (findUserByEmail store email = none →
      (validate_password password).1 = true →
      register_user hashP store email password newId verification_token now emailSent =
        (.ok ⟨"Registration successful. Please check your email for verification.",
              some newId, none, none⟩,
         store ++ [⟨newId, email, hashP password, true, false, pyNowUTC now,
                    pyNowUTC now, some verification_token, none, none⟩],
         [.verification email verification_token])) ∧
    (∀ b1 b2 : Bool,
      register_user hashP store email password newId verification_token now b1 =
        register_user hashP store email password newId verification_token now b2) ∧
    (findUserByEmail store email = none →
      (validate_password password).1 = true →
      ∀ (password2 newId2 tok2 : String) (now2 : Int) (b2 : Bool),
        (register_user hashP
          (register_user hashP store email password newId verification_token now emailSent).2.1
          email password2 newId2 tok2 now2 b2).1 = .error emailAlreadyExistsError) := by
  refine ⟨?_, ?_, ?_, ?_, ?_⟩
  · intro hne
    unfold register_user
    cases h : findUserByEmail store email with
    | none => exact absurd h hne
    | some u => rfl
  · intro hnone hval
    simp [register_user, hnone, hval]
  · intro hnone hval
    simp [register_user, hnone, hval]
  · intro b1 b2
    rfl
  · intro hnone hval password2 newId2 tok2 now2 b2
    have hstore :
        (register_user hashP store email password newId verification_token now emailSent).2.1 =
          store ++ [⟨newId, email, hashP password, true, false, pyNowUTC now,
                     pyNowUTC now, some verification_token, none, none⟩] := by
      simp [register_user, hnone, hval]
    rw [hstore]
    have hfound : findUserByEmail
        (store ++ [⟨newId, email, hashP password, true, false, pyNowUTC now,
                    pyNowUTC now, some verification_token, none, none⟩]) email =
        some ⟨newId, email, hashP password, true, false, pyNowUTC now,
              pyNowUTC now, some verification_token, none, none⟩ := by
      unfold findUserByEmail at hnone ⊢
      rw [List.find?_append, hnone]
      simp
    simp [register_user, hfound]

/-- Witness for C6: a fresh registration succeeds with the expected stored
user and no access token, a weak password and a duplicate email fail, and the
result is the same whether the verification email send succeeded or not. -/
theorem C6_register_user_witness :
    register_user (fun s => s ++ "#") [] "a@x.com" "Abcd1234" "u9" "tk" 5 true =
      (.ok ⟨"Registration successful. Please check your email for verification.",
            some "u9", none, none⟩,
       [⟨"u9", "a@x.com", "Abcd1234#", true, false, pyNowUTC 5, pyNowUTC 5,
         some "tk", none, none⟩],
       [.verification "a@x.com" "tk"]) ∧
    register_user (fun s => s ++ "#") [] "a@x.com" "weak" "u9" "tk" 5 true =
      (.error (passwordValidationError "Password must be at least 8 characters long"),
       [], []) ∧
    register_user (fun s => s ++ "#") [uActive] "a@x.com" "Abcd1234" "u9" "tk" 5 true =
      (.error emailAlreadyExistsError, [uActive], []) ∧
    register_user (fun s => s ++ "#") [] "a@x.com" "Abcd1234" "u9" "tk" 5 true =
      register_user (fun s => s ++ "#") [] "a@x.com" "Abcd1234" "u9" "tk" 5 false ∧
    (register_user (fun s => s ++ "#")
      (register_user (fun s => s ++ "#") [] "a@x.com" "Abcd1234" "u9" "tk" 5 true).2.1
      "a@x.com" "Xyzw5678" "u10" "tk2" 6 true).1 = .error emailAlreadyExistsError := by
  have h := C6_register_user_cases (fun s => s ++ "#") [] "a@x.com" "Abcd1234" "u9" "tk" 5 true
  have hw := C6_register_user_cases (fun s => s ++ "#") [] "a@x.com" "weak" "u9" "tk" 5 true
  have hc := C6_register_user_cases (fun s => s ++ "#") [uActive] "a@x.com" "Abcd1234" "u9" "tk" 5 true
  refine ⟨?_, ?_, ?_, ?_, ?_⟩
  · have := h.2.2.1 (by decide) (by decide)
    simpa using this
  · have := hw.2.1 (by decide) (by decide)
    simpa using this
  · exact hc.1 (by decide)
  · exact h.2.2.2.1 true false
  · exact h.2.2.2.2 (by decide) (by decide) "Xyzw5678" "u10" "tk2" 6 true

/-- Fixture: an active, verified user holding reset token "rtok" with a naive
expiry timestamp of 1000. -/
def uReset : User :=
  ⟨"u4", "d@x.com", "h4", true, true, pyNowUTC 0, pyNowUTC 0, none,
   some "rtok", some ⟨1000, none⟩⟩

/-- C3: `reset_password` returns the one shared `InvalidTokenError` value when
no user holds the token and, indistinguishably, when the stored expiry —
normalized to UTC if naive — is not strictly after the current UTC time; when
the token resolves, is unexpired and the new password is strong, it stores the
new hash, clears the reset token and expiry, sets `updated_at`, and returns a
response with no access token. -/
theorem C3_reset_password_cases (hashP : String → String) (store : List User)
    (token new_password : String) (now : Int) :
    (findUserByResetToken store token = none →
      reset_password hashP store token new_password now =
        (.error invalidResetTokenError, store)) ∧
    (∀ u e, findUserByResetToken store token = some u →
      u.password_reset_expires = some e →
      (normalizeUTC e).toUTCInstant ≤ now →
      reset_password hashP store token new_password now =
        (.error invalidResetTokenError, store)) ∧
    (∀ u e, findUserByResetToken store token = some u →
      u.password_reset_expires = some e →
      now < (normalizeUTC e).toUTCInstant →
      (validate_password new_password).1 = true →
      reset_password hashP store token new_password now =
        (.ok ⟨"Password reset successfully", none, none, none⟩,
         saveUser store { u with
           password_hash := hashP new_password,
           password_reset_token := none,
           password_reset_expires := none,
           updated_at := pyNowUTC now })) := by
  have hnoweq : (pyNowUTC now).toUTCInstant = now := by
    simp [pyNowUTC, PyDateTime.toUTCInstant]
  refine ⟨?_, ?_, ?_⟩
  · intro hnone
    simp [reset_password, hnone]
  · intro u e hu he hle
    have hle' : (normalizeUTC e).toUTCInstant ≤ (pyNowUTC now).toUTCInstant := by
      rw [hnoweq]; exact hle
    simp [reset_password, hu, he, hle']
  · intro u e hu he hlt hval
    have hnle : ¬ (normalizeUTC e).toUTCInstant ≤ (pyNowUTC now).toUTCInstant := by
      rw [hnoweq]; exact not_le.mpr hlt
    simp [reset_password, hu, he, hnle, hval]

/-- Witness for C3: with user `uReset` (naive expiry 1000), the token is
unknown on the empty store, expired at time 2000, and consumed at time 500:
the hash is replaced, token and expiry cleared, and no access token returned. -/
theorem C3_reset_password_witness :
    reset_password (fun s => s ++ "#") [] "rtok" "Abcd1234" 2000 =
      (.error invalidResetTokenError, []) ∧
    reset_password (fun s => s ++ "#") [uReset] "rtok" "Abcd1234" 2000 =
      (.error invalidResetTokenError, [uReset]) ∧
    reset_password (fun s => s ++ "#") [uReset] "rtok" "Abcd1234" 500 =
      (.ok ⟨"Password reset successfully", none, none, none⟩,
       saveUser [uReset] { uReset with
         password_hash := "Abcd1234#",
         password_reset_token := none,
         password_reset_expires := none,
         updated_at := pyNowUTC 500 }) := by
  have h1 := (C3_reset_password_cases (fun s => s ++ "#") [] "rtok" "Abcd1234" 2000).1
    (by decide)
  have h2 := (C3_reset_password_cases (fun s => s ++ "#") [uReset] "rtok" "Abcd1234" 2000).2.1
    uReset ⟨1000, none⟩ (by decide) (by decide) (by decide)
  have h3 := (C3_reset_password_cases (fun s => s ++ "#") [uReset] "rtok" "Abcd1234" 500).2.2
    uReset ⟨1000, none⟩ (by decide) (by decide) (by decide) (by decide)
  refine ⟨h1, h2, ?_⟩
  simpa using h3

/-- C9: `reset_password` is atomic on failure — every error result (unknown
token, missing or non-future expiry, weak new password) leaves the user store
exactly as it was, since every error branch precedes any mutation. -/
theorem C9_reset_password_atomic_on_failure (hashP : String → String)
    (store : List User) (token new_password : String) (now : Int)
    (e : AppError) :
    (reset_password hashP store token new_password now).1 = .error e →
    (reset_password hashP store token new_password now).2 = store := by
  unfold reset_password
  cases h : findUserByResetToken store token with
  | none => intro _; rfl
  | some u =>
    cases h2 : u.password_reset_expires with
    | none => intro _; simp [h2]
    | some e2 =>
      by_cases hle : (normalizeUTC e2).toUTCInstant ≤ (pyNowUTC now).toUTCInstant
      · intro _; simp [h2, hle]
      · by_cases hv : (validate_password new_password).1 = false
        · intro _; simp [h2, hle, hv]
        · intro herr
          exfalso
          simp [h2, hle, hv] at herr

/-- Witness for C9: three concrete failing runs — unknown token, expired
token, weak new password — each leaving the store untouched. -/
theorem C9_reset_password_atomic_witness :
    (reset_password (fun s => s ++ "#") [] "rtok" "Abcd1234" 0).2 = [] ∧
    (reset_password (fun s => s ++ "#") [uReset] "rtok" "Abcd1234" 2000).2 = [uReset] ∧
    (reset_password (fun s => s ++ "#") [uReset] "rtok" "weak" 500).2 = [uReset] := by
  refine ⟨?_, ?_, ?_⟩
  · exact C9_reset_password_atomic_on_failure (fun s => s ++ "#") [] "rtok"
      "Abcd1234" 0 invalidResetTokenError rfl
  · exact C9_reset_password_atomic_on_failure (fun s => s ++ "#") [uReset] "rtok"
      "Abcd1234" 2000 invalidResetTokenError rfl
  · exact C9_reset_password_atomic_on_failure (fun s => s ++ "#") [uReset] "rtok"
      "weak" 500
      (newPasswordValidationError "Password must be at least 8 characters long")
      rfl

/-- If the raw lookup misses (nonexistent or malformed id), the guarded fetch
yields `none`. -/
theorem resolveTemplate_none_of_absent (validId : String → Bool)
    (ts : List TaskTemplate) (template_id user_id : String)
    (h : getTemplateDoc validId ts template_id = none) :
    resolveTemplate validId ts template_id user_id = none := by
  unfold resolveTemplate
  rw [h]

/-- If the row exists but belongs to another user, the guarded fetch yields
`none` as well. -/
theorem resolveTemplate_none_of_owner (validId : String → Bool)
    (ts : List TaskTemplate) (template_id user_id : String) (t : TaskTemplate)
    (h : getTemplateDoc validId ts template_id = some t)
    (howner : t.user_id ≠ user_id) :
    resolveTemplate validId ts template_id user_id = none := by
  unfold resolveTemplate
  rw [h]
  simp [howner]

/-- A malformed id makes the raw template lookup miss. -/
theorem getTemplateDoc_none_of_malformed (validId : String → Bool)
    (ts : List TaskTemplate) (template_id : String)
    (h : validId template_id = false) :
    getTemplateDoc validId ts template_id = none := by
  unfold getTemplateDoc
  rw [h]
  rfl

/-- Item analogue of `resolveTemplate_none_of_absent`. -/
theorem resolveItem_none_of_absent (validId : String → Bool)
    (items : List TaskItem) (item_id user_id : String)
    (h : getItemDoc validId items item_id = none) :
    resolveItem validId items item_id user_id = none := by
  unfold resolveItem
  rw [h]

/-- Item analogue of `resolveTemplate_none_of_owner`. -/
theorem resolveItem_none_of_owner (validId : String → Bool)
    (items : List TaskItem) (item_id user_id : String) (it : TaskItem)
    (h : getItemDoc validId items item_id = some it)
    (howner : it.user_id ≠ user_id) :
    resolveItem validId items item_id user_id = none := by
  unfold resolveItem
  rw [h]
  simp [howner]

/-- A malformed id makes the raw item lookup miss. -/
theorem getItemDoc_none_of_malformed (validId : String → Bool)
    (items : List TaskItem) (item_id : String)
    (h : validId item_id = false) :
    getItemDoc validId items item_id = none := by
  unfold getItemDoc
  rw [h]
  rfl

/-- C4: for get, update and delete of a template or item, a row owned by a
different user produces exactly the same `NotFoundError` value (same status
code 404 and error code) as a nonexistent id and as a malformed id: wrong
ownership is never distinguishable from absence. -/
theorem C4_ownership_indistinguishable_from_absence
    (validId : String → Bool) (ts : List TaskTemplate) (items : List TaskItem)
    (template_id item_id user_id : String) (tupd : TaskTemplateUpdate)
    (iupd : TaskItemUpdate) (now : Int) :
    ((∀ t, getTemplateDoc validId ts template_id = some t → t.user_id ≠ user_id →
      get_template validId ts template_id user_id = .error templateNotFoundError) ∧
     (getTemplateDoc validId ts template_id = none →
      get_template validId ts template_id user_id = .error templateNotFoundError) ∧
     (validId template_id = false →
      get_template validId ts template_id user_id = .error templateNotFoundError)) ∧
    ((∀ t, getTemplateDoc validId ts template_id = some t → t.user_id ≠ user_id →
      (update_template validId ts template_id tupd user_id now).1 =
        .error templateNotFoundError) ∧
     (getTemplateDoc validId ts template_id = none →
      (update_template validId ts template_id tupd user_id now).1 =
        .error templateNotFoundError) ∧
     (validId template_id = false →
      (update_template validId ts template_id tupd user_id now).1 =
        .error templateNotFoundError)) ∧
    ((∀ t, getTemplateDoc validId ts template_id = some t → t.user_id ≠ user_id →
      (delete_template validId ts items template_id user_id).1 =
        .error templateNotFoundError) ∧
     (getTemplateDoc validId ts template_id = none →
      (delete_template validId ts items template_id user_id).1 =
        .error templateNotFoundError) ∧
     (validId template_id = false →
      (delete_template validId ts items template_id user_id).1 =
        .error templateNotFoundError)) ∧
    ((∀ it, getItemDoc validId items item_id = some it → it.user_id ≠ user_id →
      get_item validId items item_id user_id = .error itemNotFoundError) ∧
     (getItemDoc validId items item_id = none →
      get_item validId items item_id user_id = .error itemNotFoundError) ∧
     (validId item_id = false →
      get_item validId items item_id user_id = .error itemNotFoundError)) ∧
    ((∀ it, getItemDoc validId items item_id = some it → it.user_id ≠ user_id →
      (update_item validId ts items item_id iupd user_id now).1 =
        .error itemNotFoundError) ∧
     (getItemDoc validId items item_id = none →
      (update_item validId ts items item_id iupd user_id now).1 =
        .error itemNotFoundError) ∧
     (validId item_id = false →
      (update_item validId ts items item_id iupd user_id now).1 =
        .error itemNotFoundError)) ∧
    ((∀ it, getItemDoc validId items item_id = some it → it.user_id ≠ user_id →
      (delete_item validId items item_id user_id).1 = .error itemNotFoundError) ∧
     (getItemDoc validId items item_id = none →
      (delete_item validId items item_id user_id).1 = .error itemNotFoundError) ∧
     (validId item_id = false →
      (delete_item validId items item_id user_id).1 = .error itemNotFoundError)) := by
  refine ⟨⟨?_, ?_, ?_⟩, ⟨?_, ?_, ?_⟩, ⟨?_, ?_, ?_⟩, ⟨?_, ?_, ?_⟩, ⟨?_, ?_, ?_⟩,
    ⟨?_, ?_, ?_⟩⟩
  · intro t h howner
    unfold get_template
    rw [resolveTemplate_none_of_owner validId ts template_id user_id t h howner]
  · intro h
    unfold get_template
    rw [resolveTemplate_none_of_absent validId ts template_id user_id h]
  · intro h
    unfold get_template
    rw [resolveTemplate_none_of_absent validId ts template_id user_id
      (getTemplateDoc_none_of_malformed validId ts template_id h)]
  · intro t h howner
    unfold update_template
    rw [resolveTemplate_none_of_owner validId ts template_id user_id t h howner]
  · intro h
    unfold update_template
    rw [resolveTemplate_none_of_absent validId ts template_id user_id h]
  · intro h
    unfold update_template
    rw [resolveTemplate_none_of_absent validId ts template_id user_id
      (getTemplateDoc_none_of_malformed validId ts template_id h)]
  · intro t h howner
    unfold delete_template
    rw [resolveTemplate_none_of_owner validId ts template_id user_id t h howner]
  · intro h
    unfold delete_template
    rw [resolveTemplate_none_of_absent validId ts template_id user_id h]
  · intro h
    unfold delete_template
    rw [resolveTemplate_none_of_absent validId ts template_id user_id
      (getTemplateDoc_none_of_malformed validId ts template_id h)]
  · intro it h howner
    unfold get_item
    rw [resolveItem_none_of_owner validId items item_id user_id it h howner]
  · intro h
    unfold get_item
    rw [resolveItem_none_of_absent validId items item_id user_id h]
  · intro h
    unfold get_item
    rw [resolveItem_none_of_absent validId items item_id user_id
      (getItemDoc_none_of_malformed validId items item_id h)]
  · intro it h howner
    unfold update_item
    rw [resolveItem_none_of_owner validId items item_id user_id it h howner]
  · intro h
    unfold update_item
    rw [resolveItem_none_of_absent validId items item_id user_id h]
  · intro h
    unfold update_item
    rw [resolveItem_none_of_absent validId items item_id user_id
      (getItemDoc_none_of_malformed validId items item_id h)]
  · intro it h howner
    unfold delete_item
    rw [resolveItem_none_of_owner validId items item_id user_id it h howner]
  · intro h
    unfold delete_item
    rw [resolveItem_none_of_absent validId items item_id user_id h]
  · intro h
    unfold delete_item
    rw [resolveItem_none_of_absent validId items item_id user_id
      (getItemDoc_none_of_malformed validId items item_id h)]

/-- Fixture: a template owned by "alice". -/
def tAlice : TaskTemplate := ⟨"t1", "Tpl", "alice", 0, 0⟩

/-- Fixture: an item owned by "alice" with no template. -/
def iAlice : TaskItem := ⟨"i1", "Itm", "alice", none, 0, 0⟩

/-- Fixture id validity: every id parses except the literal "bad". -/
def validX : String → Bool := fun s => !(s == "bad")

/-- Witness for C4: caller "bob" on alice's rows ("t1"/"i1"), on absent ids
("zz") and on a malformed id ("bad") receives the identical 404 error value
from each of the six operations. -/
theorem C4_ownership_witness :
    get_template validX [tAlice] "t1" "bob" = .error templateNotFoundError ∧
    get_template validX [tAlice] "zz" "bob" = .error templateNotFoundError ∧
    get_template validX [tAlice] "bad" "bob" = .error templateNotFoundError ∧
    (update_template validX [tAlice] "t1" ⟨some "N"⟩ "bob" 7).1 =
      .error templateNotFoundError ∧
    (update_template validX [tAlice] "zz" ⟨some "N"⟩ "bob" 7).1 =
      .error templateNotFoundError ∧
    (update_template validX [tAlice] "bad" ⟨some "N"⟩ "bob" 7).1 =
      .error templateNotFoundError ∧
    (delete_template validX [tAlice] [iAlice] "t1" "bob").1 =
      .error templateNotFoundError ∧
    (delete_template validX [tAlice] [iAlice] "zz" "bob").1 =
      .error templateNotFoundError ∧
    (delete_template validX [tAlice] [iAlice] "bad" "bob").1 =
      .error templateNotFoundError ∧
    get_item validX [iAlice] "i1" "bob" = .error itemNotFoundError ∧
    get_item validX [iAlice] "zz" "bob" = .error itemNotFoundError ∧
    get_item validX [iAlice] "bad" "bob" = .error itemNotFoundError ∧
    (update_item validX [tAlice] [iAlice] "i1" ⟨some "N", none⟩ "bob" 7).1 =
      .error itemNotFoundError ∧
    (update_item validX [tAlice] [iAlice] "zz" ⟨some "N", none⟩ "bob" 7).1 =
      .error itemNotFoundError ∧
    (update_item validX [tAlice] [iAlice] "bad" ⟨some "N", none⟩ "bob" 7).1 =
      .error itemNotFoundError ∧
    (delete_item validX [iAlice] "i1" "bob").1 = .error itemNotFoundError ∧
    (delete_item validX [iAlice] "zz" "bob").1 = .error itemNotFoundError ∧
    (delete_item validX [iAlice] "bad" "bob").1 = .error itemNotFoundError := by
  have h1 := C4_ownership_indistinguishable_from_absence validX [tAlice] [iAlice]
    "t1" "i1" "bob" ⟨some "N"⟩ ⟨some "N", none⟩ 7
  have h2 := C4_ownership_indistinguishable_from_absence validX [tAlice] [iAlice]
    "zz" "zz" "bob" ⟨some "N"⟩ ⟨some "N", none⟩ 7
  have h3 := C4_ownership_indistinguishable_from_absence validX [tAlice] [iAlice]
    "bad" "bad" "bob" ⟨some "N"⟩ ⟨some "N", none⟩ 7
  refine ⟨h1.1.1 tAlice (by decide) (by decide), h2.1.2.1 (by decide),
    h3.1.2.2 (by decide),
    h1.2.1.1 tAlice (by decide) (by decide), h2.2.1.2.1 (by decide),
    h3.2.1.2.2 (by decide),
    h1.2.2.1.1 tAlice (by decide) (by decide), h2.2.2.1.2.1 (by decide),
    h3.2.2.1.2.2 (by decide),
    h1.2.2.2.1.1 iAlice (by decide) (by decide), h2.2.2.2.1.2.1 (by decide),
    h3.2.2.2.1.2.2 (by decide),
    h1.2.2.2.2.1.1 iAlice (by decide) (by decide), h2.2.2.2.2.1.2.1 (by decide),
    h3.2.2.2.2.1.2.2 (by decide),
    h1.2.2.2.2.2.1 iAlice (by decide) (by decide), h2.2.2.2.2.2.2.1 (by decide),
    h3.2.2.2.2.2.2.2 (by decide)⟩

/-- Unpacking a successful guarded template fetch: the raw lookup found the
row and the owner matches. -/
theorem resolveTemplate_some_elim (validId : String → Bool)
    (ts : List TaskTemplate) (template_id user_id : String) (t : TaskTemplate)
    (h : resolveTemplate validId ts template_id user_id = some t) :
    getTemplateDoc validId ts template_id = some t ∧ t.user_id = user_id := by
  unfold resolveTemplate at h
  cases hg : getTemplateDoc validId ts template_id with
  | none => rw [hg] at h; exact Option.noConfusion h
  | some t0 =>
    rw [hg] at h
    by_cases howner : (t0.user_id == user_id) = true
    · simp only [howner, if_true] at h
      injection h with h
      subst h
      exact ⟨rfl, eq_of_beq howner⟩
    · simp at h
      exact absurd (beq_of_eq h.1) howner

/-- A raw template lookup hit carries its id and membership. -/
theorem getTemplateDoc_some_elim (validId : String → Bool)
    (ts : List TaskTemplate) (template_id : String) (t : TaskTemplate)
    (h : getTemplateDoc validId ts template_id = some t) :
    t.id = template_id ∧ t ∈ ts := by
  unfold getTemplateDoc at h
  by_cases hv : validId template_id = true
  · rw [if_pos hv] at h
    have hp := List.find?_some h
    exact ⟨eq_of_beq hp, List.mem_of_find?_eq_some h⟩
  · rw [if_neg hv] at h
    exact Option.noConfusion h

/-- C2: `delete_template` fails with the 404 error when the template is
missing, malformed or foreign; on success it reports
`deleted_items_count` equal to the number of items matching
`template_id == id AND user_id == caller` in the prior store, removes the
template (its subsequent lookup is not-found), and removes every matched
item, whose subsequent lookup is also not-found. -/
theorem C2_delete_template_cascade (validId : String → Bool)
    (ts : List TaskTemplate) (items : List TaskItem)
    (template_id user_id : String) :
    (resolveTemplate validId ts template_id user_id = none →
      delete_template validId ts items template_id user_id =
        (.error templateNotFoundError, ts, items)) ∧
    (∀ t, resolveTemplate validId ts template_id user_id = some t →
      (delete_template validId ts items template_id user_id).1 =
        .ok ("Template deleted successfully",
             (items.filter (cascadeMatch template_id user_id)).length) ∧
      get_template validId
        (delete_template validId ts items template_id user_id).2.1
        template_id user_id = .error templateNotFoundError ∧
      (∀ it ∈ items, cascadeMatch template_id user_id it = true →
        it ∉ (delete_template validId ts items template_id user_id).2.2 ∧
        get_item validId
          (delete_template validId ts items template_id user_id).2.2
          it.id user_id = .error itemNotFoundError)) := by
  constructor
  · intro h
    unfold delete_template
    rw [h]
  · intro t ht
    obtain ⟨hdoc, _⟩ := resolveTemplate_some_elim validId ts template_id user_id t ht
    obtain ⟨hid, _⟩ := getTemplateDoc_some_elim validId ts template_id t hdoc
    have hdel : delete_template validId ts items template_id user_id =
        (.ok ("Template deleted successfully",
              (items.filter (cascadeMatch template_id user_id)).length),
         ts.filter (fun x => !(x.id == t.id)),
         items.filter (fun x =>
           !((items.filter (cascadeMatch template_id user_id)).any
             (fun d => d.id == x.id)))) := by
      unfold delete_template
      rw [ht]
    refine ⟨by rw [hdel], ?_, ?_⟩
    · rw [hdel]
      have hnone : getTemplateDoc validId
          (ts.filter (fun x => !(x.id == t.id))) template_id = none := by
        unfold getTemplateDoc
        by_cases hv : validId template_id = true
        · rw [if_pos hv]
          rw [List.find?_eq_none]
          intro x hx
          have hx' := (List.mem_filter.mp hx).2
          intro hbeq
          have : x.id = template_id := eq_of_beq hbeq
          rw [hid] at hx'
          simp [this] at hx'
        · rw [if_neg hv]
      unfold get_template
      rw [resolveTemplate_none_of_absent validId _ template_id user_id hnone]
    · intro it hmem hmatch
      have hindel : it ∈ items.filter (cascadeMatch template_id user_id) :=
        List.mem_filter.mpr ⟨hmem, hmatch⟩
      constructor
      · rw [hdel]
        intro hcontra
        have h2 := (List.mem_filter.mp hcontra).2
        simp only [Bool.not_eq_true'] at h2
        have h3 : (items.filter (cascadeMatch template_id user_id)).any
            (fun d => d.id == it.id) = true := by
          rw [List.any_eq_true]
          exact ⟨it, hindel, by simp⟩
        rw [h3] at h2
        exact Bool.noConfusion h2
      · rw [hdel]
        have hnone : getItemDoc validId
            (items.filter (fun x =>
              !((items.filter (cascadeMatch template_id user_id)).any
                (fun d => d.id == x.id)))) it.id = none := by
          unfold getItemDoc
          by_cases hv : validId it.id = true
          · rw [if_pos hv]
            rw [List.find?_eq_none]
            intro x hx hbeq
            have hx' := (List.mem_filter.mp hx).2
            simp only [Bool.not_eq_true'] at hx'
            have hxid : x.id = it.id := eq_of_beq hbeq
            have h4 : (items.filter (cascadeMatch template_id user_id)).any
                (fun d => d.id == x.id) = true := by
              rw [List.any_eq_true]
              exact ⟨it, hindel, by simp [hxid]⟩
            rw [h4] at hx'
            exact Bool.noConfusion hx'
          · rw [if_neg hv]
        unfold get_item
        rw [resolveItem_none_of_absent validId _ it.id user_id hnone]

/-- Fixture: a template owned by "carol" with three items attached. -/
def tCasc : TaskTemplate := ⟨"t9", "T", "carol", 0, 0⟩

/-- Fixture: first item of `tCasc`. -/
def iC1 : TaskItem := ⟨"j1", "a", "carol", some "t9", 0, 0⟩

/-- Fixture: second item of `tCasc`. -/
def iC2 : TaskItem := ⟨"j2", "b", "carol", some "t9", 0, 0⟩

/-- Fixture: third item of `tCasc`. -/
def iC3 : TaskItem := ⟨"j3", "c", "carol", some "t9", 0, 0⟩

/-- Witness for C2: deleting a template owning 3 items reports
`deleted_items_count = 3`, and the template and all three items are gone
(subsequent lookups return the 404 errors); the foreign-owner case errors. -/
theorem C2_delete_template_witness :
    (delete_template validX [tCasc] [iC1, iC2, iC3] "t9" "carol").1 =
      .ok ("Template deleted successfully", 3) ∧
    get_template validX
      (delete_template validX [tCasc] [iC1, iC2, iC3] "t9" "carol").2.1
      "t9" "carol" = .error templateNotFoundError ∧
    get_item validX
      (delete_template validX [tCasc] [iC1, iC2, iC3] "t9" "carol").2.2
      "j1" "carol" = .error itemNotFoundError ∧
    get_item validX
      (delete_template validX [tCasc] [iC1, iC2, iC3] "t9" "carol").2.2
      "j2" "carol" = .error itemNotFoundError ∧
    get_item validX
      (delete_template validX [tCasc] [iC1, iC2, iC3] "t9" "carol").2.2
      "j3" "carol" = .error itemNotFoundError ∧
    delete_template validX [tCasc] [iC1, iC2, iC3] "t9" "bob" =
      (.error templateNotFoundError, [tCasc], [iC1, iC2, iC3]) := by
  have h := C2_delete_template_cascade validX [tCasc] [iC1, iC2, iC3] "t9" "carol"
  have hb := C2_delete_template_cascade validX [tCasc] [iC1, iC2, iC3] "t9" "bob"
  have hs := h.2 tCasc (by decide)
  have h1 := hs.2.2 iC1 (by decide) (by decide)
  have h2 := hs.2.2 iC2 (by decide) (by decide)
  have h3 := hs.2.2 iC3 (by decide) (by decide)
  exact ⟨hs.1, hs.2.1, h1.2, h2.2, h3.2, hb.1 (by decide)⟩

/-- Unpacking a successful guarded item fetch. -/
theorem resolveItem_some_elim (validId : String → Bool)
    (items : List TaskItem) (item_id user_id : String) (it : TaskItem)
    (h : resolveItem validId items item_id user_id = some it) :
    getItemDoc validId items item_id = some it ∧ it.user_id = user_id := by
  unfold resolveItem at h
  cases hg : getItemDoc validId items item_id with
  | none => rw [hg] at h; exact Option.noConfusion h
  | some it0 =>
    rw [hg] at h
    by_cases howner : (it0.user_id == user_id) = true
    · simp only [howner, if_true] at h
      injection h with h
      subst h
      exact ⟨rfl, eq_of_beq howner⟩
    · simp at h
      exact absurd (beq_of_eq h.1) howner

/-- A raw item lookup hit carries its id and membership. -/
theorem getItemDoc_some_elim (validId : String → Bool)
    (items : List TaskItem) (item_id : String) (it : TaskItem)
    (h : getItemDoc validId items item_id = some it) :
    it.id = item_id ∧ it ∈ items := by
  unfold getItemDoc at h
  by_cases hv : validId item_id = true
  · rw [if_pos hv] at h
    have hp := List.find?_some h
    exact ⟨eq_of_beq hp, List.mem_of_find?_eq_some h⟩
  · rw [if_neg hv] at h
    exact Option.noConfusion h

/-- The sequential field assignments of `update_item` never touch id, owner,
creation time or (by themselves) the update time. -/
theorem applyItemUpdate_preserves (it : TaskItem) (iupd : TaskItemUpdate) :
    (applyItemUpdate it iupd).id = it.id ∧
    (applyItemUpdate it iupd).user_id = it.user_id ∧
    (applyItemUpdate it iupd).created_at = it.created_at ∧
    (applyItemUpdate it iupd).updated_at = it.updated_at := by
  unfold applyItemUpdate
  cases iupd.name <;> cases iupd.template_id <;> simp

/-- C10: every row in the store after `update_template` or `update_item`
keeps the id, owning `user_id` and `created_at` of a row that was already in
the store: updates touch at most name (plus `template_id` for items) and
`updated_at`. -/
theorem C10_updates_touch_only_declared_fields
    (validId : String → Bool) (ts : List TaskTemplate) (items : List TaskItem)
    (template_id item_id user_id : String) (tupd : TaskTemplateUpdate)
    (iupd : TaskItemUpdate) (now : Int) :
    (∀ t' ∈ (update_template validId ts template_id tupd user_id now).2,
      ∃ t ∈ ts, t'.id = t.id ∧ t'.user_id = t.user_id ∧
        t'.created_at = t.created_at) ∧
    (∀ i' ∈ (update_item validId ts items item_id iupd user_id now).2,
      ∃ i ∈ items, i'.id = i.id ∧ i'.user_id = i.user_id ∧
        i'.created_at = i.created_at) := by
  constructor
  · intro t' ht'
    cases hres : resolveTemplate validId ts template_id user_id with
    | none =>
      simp only [update_template, hres] at ht'
      exact ⟨t', ht', rfl, rfl, rfl⟩
    | some t =>
      obtain ⟨hdoc, _⟩ := resolveTemplate_some_elim validId ts template_id user_id t hres
      obtain ⟨_, hmem⟩ := getTemplateDoc_some_elim validId ts template_id t hdoc
      simp only [update_template, hres] at ht'
      cases hname : tupd.name with
      | none =>
        rw [hname] at ht'
        exact ⟨t', ht', rfl, rfl, rfl⟩
      | some n =>
        rw [hname] at ht'
        simp only [saveTemplate, List.mem_map] at ht'
        obtain ⟨x, hx, hxe⟩ := ht'
        by_cases hxid : (x.id == ({ t with name := n, updated_at := now } : TaskTemplate).id) = true
        · rw [if_pos hxid] at hxe
          subst hxe
          exact ⟨t, hmem, rfl, rfl, rfl⟩
        · rw [if_neg hxid] at hxe
          subst hxe
          exact ⟨x, hx, rfl, rfl, rfl⟩
  · intro i' hi'
    cases hres : resolveItem validId items item_id user_id with
    | none =>
      simp only [update_item, hres] at hi'
      exact ⟨i', hi', rfl, rfl, rfl⟩
    | some it =>
      obtain ⟨hdoc, _⟩ := resolveItem_some_elim validId items item_id user_id it hres
      obtain ⟨_, hmem⟩ := getItemDoc_some_elim validId items item_id it hdoc
      simp only [update_item, hres] at hi'
      by_cases hfail : updateItemTemplateCheckFails validId ts iupd user_id = true
      · simp only [hfail, if_true] at hi'
        exact ⟨i', hi', rfl, rfl, rfl⟩
      · simp only [Bool.not_eq_true] at hfail
        simp only [hfail, Bool.false_eq_true, if_false] at hi'
        by_cases hup : (iupd.name.isSome || iupd.template_id.isSome) = true
        · simp only [hup, if_true, saveItem, List.mem_map] at hi'
          obtain ⟨x, hx, hxe⟩ := hi'
          obtain ⟨hid, huid, hcr, _⟩ := applyItemUpdate_preserves it iupd
          by_cases hxid : (x.id ==
              ({ applyItemUpdate it iupd with updated_at := now } : TaskItem).id) = true
          · rw [if_pos hxid] at hxe
            subst hxe
            exact ⟨it, hmem, hid, huid, hcr⟩
          · rw [if_neg hxid] at hxe
            subst hxe
            exact ⟨x, hx, rfl, rfl, rfl⟩
        · simp only [Bool.not_eq_true] at hup
          simp only [hup, Bool.false_eq_true, if_false] at hi'
          exact ⟨i', hi', rfl, rfl, rfl⟩

/-- Witness for C10: after renaming alice's template and item at time 9, each
resulting row keeps the id, owner and creation time of a pre-existing row. -/
theorem C10_updates_frame_witness :
    (∃ t ∈ [tAlice], (⟨"t1", "N", "alice", 0, 9⟩ : TaskTemplate).id = t.id ∧
      (⟨"t1", "N", "alice", 0, 9⟩ : TaskTemplate).user_id = t.user_id ∧
      (⟨"t1", "N", "alice", 0, 9⟩ : TaskTemplate).created_at = t.created_at) ∧
    (∃ i ∈ [iAlice], (⟨"i1", "M", "alice", none, 0, 9⟩ : TaskItem).id = i.id ∧
      (⟨"i1", "M", "alice", none, 0, 9⟩ : TaskItem).user_id = i.user_id ∧
      (⟨"i1", "M", "alice", none, 0, 9⟩ : TaskItem).created_at = i.created_at) := by
  have h := C10_updates_touch_only_declared_fields validX [tAlice] [iAlice]
    "t1" "i1" "alice" ⟨some "N"⟩ ⟨some "M", none⟩ 9
  exact ⟨h.1 ⟨"t1", "N", "alice", 0, 9⟩ (by decide),
         h.2 ⟨"i1", "M", "alice", none, 0, 9⟩ (by decide)⟩

/-- C7 counterexample: `create_item` with the provided empty-string
`templateId` — which resolves to no template owned by the caller — does NOT
raise `ValidationError(TEMPLATE_NOT_FOUND)`: the truthiness guard skips the
check and the item is stored with the dangling value `some ""`. -/
theorem C7_counterexample_empty_string_template :
    resolveTemplate validX [] "" "u1" = none ∧
    create_item validX [] [] ⟨"task", some ""⟩ "u1" "i1" 0 =
      (.ok ⟨"i1", "task", some "", 0, 0⟩,
       [⟨"i1", "task", "u1", some "", 0, 0⟩]) := by
  exact ⟨rfl, rfl⟩

/-- C7 amended: at both `create_item` and `update_item`, a provided
NON-EMPTY `templateId` that does not resolve to a caller-owned template
raises `ValidationError(TEMPLATE_NOT_FOUND)` and leaves the item store
unchanged; `create_item` with no `templateId` always succeeds and appends the
item (a provided empty string also skips validation, stored verbatim, per the
counterexample). -/
theorem C7_amended_template_reference_validated (validId : String → Bool)
    (ts : List TaskTemplate) (items : List TaskItem)
    (name item_id user_id newId : String) (now : Int) :
    (∀ s, s ≠ "" → resolveTemplate validId ts s user_id = none →
      create_item validId ts items ⟨name, some s⟩ user_id newId now =
        (.error itemTemplateNotFoundError, items)) ∧
    (∀ nameOpt s it, s ≠ "" →
      resolveItem validId items item_id user_id = some it →
      resolveTemplate validId ts s user_id = none →
      update_item validId ts items item_id ⟨nameOpt, some s⟩ user_id now =
        (.error itemTemplateNotFoundError, items)) ∧
    (create_item validId ts items ⟨name, none⟩ user_id newId now =
      (.ok ⟨newId, name, none, now, now⟩,
       items ++ [⟨newId, name, user_id, none, now, now⟩])) := by
  refine ⟨?_, ?_, ?_⟩
  · intro s hs hres
    simp [create_item, hs, hres]
  · intro nameOpt s it hs hit hres
    have hfail : updateItemTemplateCheckFails validId ts ⟨nameOpt, some s⟩ user_id = true := by
      simp [updateItemTemplateCheckFails, hs, hres]
    simp [update_item, hit, hfail]
  · simp [create_item, itemResponse]

/-- Witness for C7 amended: bob creating an item against alice's template
fails with the 400 TEMPLATE_NOT_FOUND; alice retargeting her item at an
absent template fails likewise; creating with no templateId succeeds. -/
theorem C7_amended_witness :
    create_item validX [tAlice] [] ⟨"task", some "t1"⟩ "bob" "i7" 3 =
      (.error itemTemplateNotFoundError, []) ∧
    update_item validX [tAlice] [iAlice] "i1" ⟨none, some "zz"⟩ "alice" 3 =
      (.error itemTemplateNotFoundError, [iAlice]) ∧
    create_item validX [] [] ⟨"task", none⟩ "u1" "i1" 0 =
      (.ok ⟨"i1", "task", none, 0, 0⟩, [⟨"i1", "task", "u1", none, 0, 0⟩]) := by
  have hc := C7_amended_template_reference_validated validX [tAlice] [] "task"
    "i0" "bob" "i7" 3
  have hu := C7_amended_template_reference_validated validX [tAlice] [iAlice]
    "task" "i1" "alice" "i7" 3
  have hn := C7_amended_template_reference_validated validX [] [] "task"
    "i0" "u1" "i1" 0
  exact ⟨hc.1 "t1" (by decide) (by decide),
         hu.2.1 none "zz" iAlice (by decide) (by decide) (by decide),
         hn.2.2⟩

/-- Fixture: an item named "A" used to show the timestamp bump on a no-change
update. -/
def iPlain : TaskItem := ⟨"i5", "A", "u1", none, 0, 0⟩

/-- C8 counterexample: updating an item with a provided name equal to its
stored name (and no templateId) changes no field value, yet `updated_at` is
bumped from 0 to 5 — the timestamp is driven by fields being PROVIDED, not by
their values changing. -/
theorem C8_counterexample_no_change_still_bumps :
    iPlain.name = "A" ∧ iPlain.template_id = none ∧ iPlain.updated_at = 0 ∧
    update_item validX [] [iPlain] "i5" ⟨some "A", none⟩ "u1" 5 =
      (.ok ⟨"i5", "A", none, 0, 5⟩, [⟨"i5", "A", "u1", none, 0, 5⟩]) := by
  exact ⟨rfl, rfl, rfl, rfl⟩

/-- C8 amended: `update_item`'s `templateId` is three-way — omitted leaves the
association unchanged, the empty string clears it to null, a non-empty value
(once validated) is stored — and `updated_at` is bumped exactly when at least
one field is provided, even if the provided value equals the stored one; with
no fields provided nothing is saved. -/
theorem C8_amended_update_item_three_way (validId : String → Bool)
    (ts : List TaskTemplate) (items : List TaskItem)
    (item_id user_id : String) (now : Int) (it : TaskItem) :
    (resolveItem validId items item_id user_id = some it →
      update_item validId ts items item_id ⟨none, none⟩ user_id now =
        (.ok (itemResponse it), items)) ∧
    (∀ nameOpt, (applyItemUpdate it ⟨nameOpt, none⟩).template_id = it.template_id) ∧
    (∀ nameOpt, (applyItemUpdate it ⟨nameOpt, some ""⟩).template_id = none) ∧
    (∀ nameOpt s, s ≠ "" →
      (applyItemUpdate it ⟨nameOpt, some s⟩).template_id = some s) ∧
    (∀ iupd, resolveItem validId items item_id user_id = some it →
      updateItemTemplateCheckFails validId ts iupd user_id = false →
      (iupd.name.isSome || iupd.template_id.isSome) = true →
      update_item validId ts items item_id iupd user_id now =
        (.ok (itemResponse { applyItemUpdate it iupd with updated_at := now }),
         saveItem items { applyItemUpdate it iupd with updated_at := now })) := by
  refine ⟨?_, ?_, ?_, ?_, ?_⟩
  · intro hres
    simp [update_item, hres, updateItemTemplateCheckFails, applyItemUpdate]
  · intro nameOpt
    cases nameOpt <;> simp [applyItemUpdate]
  · intro nameOpt
    cases nameOpt <;> simp [applyItemUpdate]
  · intro nameOpt s hs
    cases nameOpt <;> simp [applyItemUpdate, hs]
  · intro iupd hres hcheck hup
    simp [update_item, hres, hcheck, hup]

/-- Witness for C8 amended: on alice's item, a no-field update returns the row
untouched without saving; clearing via "" and retargeting via "t1" store the
expected association; a provided name bumps `updated_at` to the call time. -/
theorem C8_amended_witness :
    update_item validX [tAlice] [iAlice] "i1" ⟨none, none⟩ "alice" 9 =
      (.ok (itemResponse iAlice), [iAlice]) ∧
    (applyItemUpdate iAlice ⟨none, none⟩).template_id = none ∧
    (applyItemUpdate iAlice ⟨none, some ""⟩).template_id = none ∧
    (applyItemUpdate iAlice ⟨none, some "t1"⟩).template_id = some "t1" ∧
    update_item validX [tAlice] [iAlice] "i1" ⟨none, some "t1"⟩ "alice" 9 =
      (.ok ⟨"i1", "Itm", some "t1", 0, 9⟩,
       [⟨"i1", "Itm", "alice", some "t1", 0, 9⟩]) := by
  have h := C8_amended_update_item_three_way validX [tAlice] [iAlice] "i1"
    "alice" 9 iAlice
  refine ⟨h.1 (by decide), ?_, h.2.2.1 none, h.2.2.2.1 none "t1" (by decide), ?_⟩
  · have := h.2.1 none
    simpa [iAlice] using this
  · have := h.2.2.2.2 ⟨none, some "t1"⟩ (by decide) (by decide) (by decide)
    simpa using this
